import Mathlib

/-!
Shallow embedding of the vaas client connection engine
(`src/connection.rs`, `src/error.rs`) together with models of the
repository types that `connection.rs` imports from modules that are not
part of the sources (`message.rs`, `vaas_verdict.rs`, `sha256.rs`,
`options.rs`, the cancellation token), which are modelled from the spec.

Asynchronous effects are embedded as explicit traces: the broadcast
channel carrying `Result<VerdictResponse, Error>` items is a list of
(inter-arrival delay, item) pairs, background loops run over finite
scripts of external events, and the HTTP upload is an environment-supplied
outcome.
-/

set_option autoImplicit false

namespace Vaas

/-- Error taxonomy, after `src/error.rs` (payloads of foreign error types
are modelled as strings).  Two deviations of `error.rs` from its use sites
in `connection.rs` are resolved in favour of `connection.rs`:
`connection.rs` constructs `Error::FailedUploadFile(status, body_text)`
with two payloads while `error.rs` declares `FailedUploadFile(StatusCode)`
with one, and `connection.rs` uses `Error::ConnectionClosed` which
`error.rs` does not declare at all. -/
inductive Error where
  | WebSocket (msg : String)
  | DeSerialization (msg : String)
  | Lock (msg : String)
  | InvalidVerdict (msg : String)
  | Cancelled
  | InvalidFrame
  | InvalidMessage (msg : String)
  | NoConnection
  | NoUploadUrl
  | IoError (msg : String)
  | InvalidSha256 (msg : String)
  | FailedRequest (msg : String)
  | FailedUploadFile (status : Nat) (body : String)
  | MissingAuthToken
  | Unauthorized
  | ThreadsDropped
  | ReadersLagging (n : Nat)
  | ConnectionClosed
deriving DecidableEq

/-- `VResult<T> = Result<T, Error>` from `src/error.rs`. -/
abbrev VResult (α : Type) := Except Error α

/-- Modelled from the spec: `sha256.rs` is absent from the sources; §3
describes the content identifier as an opaque hash string. -/
structure Sha256 where
  hex : String
deriving DecidableEq

/-- Modelled from the spec: `message.rs` is absent from the sources; §6
describes response messages as carrying `guid`, a verdict status
discriminator, optional `upload_url`, optional `upload_token`. -/
structure VerdictResponse where
  guid : String
  verdict : String
  upload_url : Option String
  upload_token : Option String
deriving DecidableEq

/-- Modelled from the spec: §3 Verdict is a tagged union of a terminal
verdict (final label, opaque to this layer) or Unknown carrying an
UploadUrl. -/
inductive Verdict where
  | malicious
  | clean
  | unsupported
  | unknown (upload_url : String)
deriving DecidableEq

/-- Whether a verdict is the non-terminal Unknown case. -/
def Verdict.isUnknown : Verdict → Bool
  | .unknown _ => true
  | _ => false

/-- Modelled from the spec: decoding of the response verdict
(`Verdict::try_from(&VerdictResponse)` of the absent `message.rs`): the
status discriminator selects a terminal label or Unknown, Unknown
requires the one-time upload location, and an unrecognized discriminator
is an invalid-verdict failure. -/
def Verdict.tryFrom (r : VerdictResponse) : VResult Verdict :=
  match r.verdict with
  | "Malicious" => .ok .malicious
  | "Clean" => .ok .clean
  | "Unsupported" => .ok .unsupported
  | "Unknown" =>
    match r.upload_url with
    | some u => .ok (.unknown u)
    | none => .error .NoUploadUrl
  | other => .error (.InvalidVerdict other)

/-- Modelled from the spec: the public verdict result of the absent
`vaas_verdict.rs`. -/
structure VaasVerdict where
  verdict : Verdict
deriving DecidableEq

/-- Modelled from the spec: `VaasVerdict::try_from(VerdictResponse)` of
the absent `vaas_verdict.rs` wraps a decoded terminal verdict as the
public result; by §4.4 step 7 an Unknown verdict at this point is a
protocol violation and must fail rather than loop. -/
def VaasVerdict.tryFrom (r : VerdictResponse) : VResult VaasVerdict :=
  match Verdict.tryFrom r with
  | .error e => .error e
  | .ok v => if v.isUnknown then .error (.InvalidVerdict r.verdict) else .ok ⟨v⟩

/-- Modelled from the spec: §3 CancellationToken is a single duration
value; time is measured in abstract units (milliseconds in the code). -/
structure CancellationToken where
  duration : Nat
deriving DecidableEq

/-- One broadcast-channel trace: the items published to the channel in
order, each paired with the delay between the start of the receive that
obtains it and its arrival.  An item whose delay reaches the token's
duration is never obtained: the `timeout` around `recv()` fires first. -/
abbrev ChannelTrace := List (Nat × VResult VerdictResponse)

/-- `Connection::wait_for_response` (`connection.rs:314`): loop
`timeout(ct.duration, recv())`, return an arriving failure immediately,
return an arriving success whose guid matches, skip a success whose guid
does not match and receive again (with a fresh timeout).  The conversion
of a fired timeout into `Error::Cancelled` is modelled from the spec
(§4.6, §7: expiry of the bound fails the attempt with the cancellation
error); the `From` impl lives outside the given sources. -/
def wait_for_response (guid : String) (ct : CancellationToken) :
    ChannelTrace → VResult VerdictResponse
  | [] => .error .Cancelled
  | (delta, item) :: rest =>
    if ct.duration ≤ delta then .error .Cancelled
    else
      match item with
      | .error e => .error e
      | .ok vr => if vr.guid = guid then .ok vr else wait_for_response guid ct rest

instance {ε α : Type} [DecidableEq ε] [DecidableEq α] : DecidableEq (Except ε α) := fun a b =>
  match a, b with
  | .error e, .error f =>
    if h : e = f then .isTrue (congrArg Except.error h)
    else .isFalse (fun hc => h (Except.error.inj hc))
  | .error _, .ok _ => .isFalse (fun hc => Except.noConfusion hc)
  | .ok _, .error _ => .isFalse (fun hc => Except.noConfusion hc)
  | .ok x, .ok y =>
    if h : x = y then .isTrue (congrArg Except.ok h)
    else .isFalse (fun hc => h (Except.ok.inj hc))

/-- HTTP response of the single upload PUT, as `connection.rs` consumes
it: a status code and the response body text
(`response.status()`, `response.text()`). -/
structure UploadHttpResponse where
  status : Nat
  body : String
deriving DecidableEq

/-- Environment of one request operation: the fresh correlation id the
request object generates, the outcome of serializing and sending the
request frame, the channel trace seen by the subscription taken before
the send, the outcome of the HTTP upload (covering `len`, `to_body` and
`reqwest` failures), and the channel trace seen by the subscription taken
for the post-upload wait. -/
structure RequestEnv where
  guid : String
  send_result : Option Error
  first_channel : ChannelTrace
  upload_result : VResult UploadHttpResponse
  second_channel : ChannelTrace
deriving DecidableEq

/-- `Connection::for_request` / `for_url_request` / `for_stream_request`
(`connection.rs:281`–`312`, all three have the same shape): serialize and
send the request through the locked writer, then wait for the correlated
response. -/
def for_request (env : RequestEnv) (ct : CancellationToken) : VResult VerdictResponse :=
  match env.send_result with
  | some e => .error e
  | none => wait_for_response env.guid ct env.first_channel

/-- `Connection::handle_unknown` (`connection.rs:256`): require the
upload authorization token, perform the single upload PUT, fail with
`FailedUploadFile(status, body_text)` on a non-200 status, then wait
again for the response carrying the same guid and wrap it as the public
verdict.  The second component counts the upload PUTs performed. -/
def handle_unknown (_upload_url : String) (response : VerdictResponse)
    (env : RequestEnv) (ct : CancellationToken) : VResult VaasVerdict × Nat :=
  match response.upload_token with
  | none => (.error .MissingAuthToken, 0)
  | some _ =>
    match env.upload_result with
    | .error e => (.error e, 1)
    | .ok http =>
      if http.status ≠ 200 then
        (.error (.FailedUploadFile http.status http.body), 1)
      else
        match wait_for_response env.guid ct env.second_channel with
        | .error e => (.error e, 1)
        | .ok resp => (VaasVerdict.tryFrom resp, 1)

/-- `Connection::for_generic` (`connection.rs:217`): hash the upload
data, send the hash request, decode the verdict of the correlated
response; on Unknown run `handle_unknown`, otherwise wrap the response as
the public verdict.  The data's `get_sha256` outcome is passed in (it is
`Ok` for buffers, fallible for files).  The second component counts the
upload PUTs performed. -/
def for_generic (get_sha256 : VResult Sha256) (env : RequestEnv)
    (ct : CancellationToken) : VResult VaasVerdict × Nat :=
  match get_sha256 with
  | .error e => (.error e, 0)
  | .ok _ =>
    match for_request env ct with
    | .error e => (.error e, 0)
    | .ok response =>
      match Verdict.tryFrom response with
      | .error e => (.error e, 0)
      | .ok (.unknown upload_url) => handle_unknown upload_url response env ct
      | .ok _ => (VaasVerdict.tryFrom response, 0)

/-- `Connection::for_stream` (`connection.rs:146`): send the stream
request, decode the verdict of the correlated response; on Unknown run
`handle_unknown` with the stream data, on any other verdict return
`Err(Error::Cancelled)` (`connection.rs:191`).  The second component
counts the upload PUTs performed. -/
def for_stream (env : RequestEnv) (ct : CancellationToken) : VResult VaasVerdict × Nat :=
  match for_request env ct with
  | .error e => (.error e, 0)
  | .ok response =>
    match Verdict.tryFrom response with
    | .error e => (.error e, 0)
    | .ok (.unknown upload_url) => handle_unknown upload_url response env ct
    | .ok _ => (.error .Cancelled, 0)

/-- `Connection::for_sha256` (`connection.rs:110`): send the hash
request, wait for the correlated response and wrap it as the public
verdict (no upload phase). -/
def for_sha256 (_sha256 : Sha256) (env : RequestEnv) (ct : CancellationToken) :
    VResult VaasVerdict :=
  match for_request env ct with
  | .error e => .error e
  | .ok response => VaasVerdict.tryFrom response

/-- `Connection::for_url` (`connection.rs:78`): send the url request,
wait for the correlated response and wrap it as the public verdict (no
upload phase). -/
def for_url (_url : String) (env : RequestEnv) (ct : CancellationToken) :
    VResult VaasVerdict :=
  match for_request env ct with
  | .error e => .error e
  | .ok response => VaasVerdict.tryFrom response

/-- `Connection::for_file` (`connection.rs:196`): `for_generic` applied
to path data, whose `get_sha256` reads the file and may fail. -/
def for_file (file_sha256 : VResult Sha256) (env : RequestEnv)
    (ct : CancellationToken) : VResult VaasVerdict :=
  (for_generic file_sha256 env ct).1

/-- Outcome of a call that may diverge by panicking instead of returning
a value: Rust `panic!` is embedded explicitly rather than as an error
value. -/
inductive PanicOr (α : Type) where
  | panics (msg : String)
  | returns (val : α)
deriving DecidableEq

/-- Whether the outcome is a panic. -/
def PanicOr.isPanics {α : Type} : PanicOr α → Bool
  | .panics _ => true
  | .returns _ => false

/-- `StreamUploadable` (`connection.rs:422`): a pure stream source with a
caller-declared content length; the stream itself is opaque to the
engine. -/
structure StreamUploadable (S : Type) where
  stream : S
  content_length : Nat

/-- `StreamUploadable::get_sha256` (`connection.rs:433`):
`panic!("Stream cannot compute SHA256")`. -/
def StreamUploadable.get_sha256 {S : Type} (_ : StreamUploadable S) :
    PanicOr (VResult Sha256) :=
  .panics "Stream cannot compute SHA256"

/-- `StreamUploadable::len` (`connection.rs:437`): the caller-declared
content length, always `Ok`. -/
def StreamUploadable.len {S : Type} (s : StreamUploadable S) : VResult Nat :=
  .ok s.content_length

/-- Observable state of a background loop run: how many liveness probes
were attempted (keep-alive) or frames received (reader), which items were
successfully published to the broadcast channel, and whether the task has
exited with an error (`None` while the loop is still running). -/
structure KeepAliveState where
  pings_sent : Nat
  published : List Error
  exit : Option Error
deriving DecidableEq

/-- One keep-alive interval tick: the outcome of `send_ping`, the outcome
of `flush`, and the number of broadcast subscribers at that moment.  A
`tokio` broadcast `send` succeeds exactly when at least one receiver
exists; with no receiver it returns the value inside a send error, which
`?` converts (via the `From` impl of `error.rs`) into `Error::Lock` and
ends the task. -/
structure KeepAliveTick where
  ping_result : Option Error
  flush_result : Option Error
  subscribers : Nat
deriving DecidableEq

/-- The error a failing broadcast `send` is converted into
(`error.rs:90`: `From<SendError<..>> for Error` yields
`Error::Lock(msg)`). -/
def sendFailure : Error := .Lock "channel closed"

/-- One iteration of `Connection::keep_alive_loop` (`connection.rs:334`):
sleep, send the ping (publishing a failed send's error), then flush
(publishing a failed flush's error); a publish with no subscribers makes
the `?` exit the task. -/
def keep_alive_tick (t : KeepAliveTick) (st : KeepAliveState) : KeepAliveState :=
  let st1 : KeepAliveState := { st with pings_sent := st.pings_sent + 1 }
  let st2 : KeepAliveState :=
    match t.ping_result with
    | none => st1
    | some e =>
      if t.subscribers = 0 then { st1 with exit := some sendFailure }
      else { st1 with published := st1.published ++ [e] }
  if st2.exit.isSome then st2
  else
    match t.flush_result with
    | none => st2
    | some e =>
      if t.subscribers = 0 then { st2 with exit := some sendFailure }
      else { st2 with published := st2.published ++ [e] }

/-- Run of `Connection::keep_alive_loop` over a finite script of interval
ticks, stopping early only when an iteration exits the task. -/
def keep_alive_run : List KeepAliveTick → KeepAliveState → KeepAliveState
  | [], st => st
  | t :: rest, st =>
    let st2 := keep_alive_tick t st
    if st2.exit.isSome then st2 else keep_alive_run rest st2

/-- `Connection::keep_alive_loop` from the spawned task's initial state. -/
def keep_alive_loop (script : List KeepAliveTick) : KeepAliveState :=
  keep_alive_run script ⟨0, [], none⟩

/-- A websocket frame as classified by `parse_frame`
(`connection.rs:375`); `other` stands for every remaining frame kind
(binary). -/
inductive Frame where
  | text (payload : String)
  | ping
  | pong
  | close
  | other
deriving DecidableEq

/-- Modelled from the spec: the protocol message variants of the absent
`message.rs` that `connection.rs` matches on. -/
inductive MessageType where
  | verdictResponse (vr : VerdictResponse)
  | ping
  | pong
  | close
deriving DecidableEq

/-- `Connection::parse_frame` (`connection.rs:375`): text frames are
decoded as protocol messages (the JSON decoding
`MessageType::try_from(&json)` of the absent `message.rs` is an abstract
`decode` function), ping/pong/close map to their message kinds, any other
frame is `Error::InvalidFrame`, and a transport read error converts into
`Error::WebSocket`. -/
def parse_frame (decode : String → VResult MessageType) :
    Except String Frame → VResult MessageType
  | .ok (.text payload) => decode payload
  | .ok .ping => .ok .ping
  | .ok .pong => .ok .pong
  | .ok .close => .ok .close
  | .ok .other => .error .InvalidFrame
  | .error e => .error (.WebSocket e)

/-- Observable state of a reader-loop run: frames received, channel items
successfully published, and whether the task has exited. -/
structure ReaderState where
  processed : Nat
  published : List (VResult VerdictResponse)
  exit : Option Error
deriving DecidableEq

/-- Publish one item to the broadcast channel: delivered when at least
one subscriber exists, otherwise the send fails and the task exits. -/
def publish (item : VResult VerdictResponse) (subscribers : Nat)
    (st : ReaderState) : ReaderState :=
  if subscribers = 0 then { st with exit := some sendFailure }
  else { st with published := st.published ++ [item] }

/-- One iteration of the reader loop (`connection.rs:352`): receive a
frame, classify it, publish a decoded verdict response as success, a
close as `Error::ConnectionClosed`, a classification failure as that
failure, and ignore everything else. -/
def reader_step (decode : String → VResult MessageType)
    (frame : Except String Frame) (subscribers : Nat)
    (st : ReaderState) : ReaderState :=
  let st1 : ReaderState := { st with processed := st.processed + 1 }
  match parse_frame decode frame with
  | .ok (.verdictResponse vr) => publish (.ok vr) subscribers st1
  | .ok .close => publish (.error .ConnectionClosed) subscribers st1
  | .error e => publish (.error e) subscribers st1
  | .ok .ping => st1
  | .ok .pong => st1

/-- Run of `Connection::start_reader_loop` over a finite script of
(received frame, subscriber count) events, stopping early only when an
iteration exits the task. -/
def reader_run (decode : String → VResult MessageType) :
    List (Except String Frame × Nat) → ReaderState → ReaderState
  | [], st => st
  | (frame, subscribers) :: rest, st =>
    let st2 := reader_step decode frame subscribers st
    if st2.exit.isSome then st2 else reader_run decode rest st2

/-- `Connection::start_reader_loop` from the spawned task's initial
state. -/
def start_reader_loop (decode : String → VResult MessageType)
    (script : List (Except String Frame × Nat)) : ReaderState :=
  reader_run decode script ⟨0, [], none⟩

/-- `futures::future::join_all` as used by the batch operations
(`connection.rs:106`, `142`, `208`): each future is identified by its
position; `completion` lists the positions in the order the underlying
futures complete; every completing future stores its result in its own
slot, and the final collection reads the slots in position order. -/
def join_all {α : Type} (dflt : α) (completion : List Nat) (futures : List α) :
    List α :=
  let events := completion.map (fun i => (i, futures.getD i dflt))
  let slots := events.foldl (fun acc p => acc.set p.1 (some p.2))
    (List.replicate futures.length (none : Option α))
  slots.map (fun o => o.getD dflt)

/-- Default result used only to model out-of-range slot reads in
`join_all`; a completion list that is a permutation of the positions
never reads it. -/
def dfltVerdict : VResult VaasVerdict := .error .Cancelled

/-- `Connection::for_sha256_list` (`connection.rs:133`): the single-item
flow for every element, joined by `join_all`. -/
def for_sha256_list (inputs : List (Sha256 × RequestEnv))
    (ct : CancellationToken) (completion : List Nat) : List (VResult VaasVerdict) :=
  join_all dfltVerdict completion (inputs.map (fun p => for_sha256 p.1 p.2 ct))

/-- `Connection::for_url_list` (`connection.rs:96`): the single-item flow
for every element, joined by `join_all`. -/
def for_url_list (inputs : List (String × RequestEnv))
    (ct : CancellationToken) (completion : List Nat) : List (VResult VaasVerdict) :=
  join_all dfltVerdict completion (inputs.map (fun p => for_url p.1 p.2 ct))

/-- `Connection::for_file_list` (`connection.rs:202`): the single-item
flow for every element, joined by `join_all`. -/
def for_file_list (inputs : List (VResult Sha256 × RequestEnv))
    (ct : CancellationToken) (completion : List Nat) : List (VResult VaasVerdict) :=
  join_all dfltVerdict completion (inputs.map (fun p => for_file p.1 p.2 ct))

/-- C4: the wait loop returns the first successful response whose guid
matches, returns any published failure immediately regardless of which
request it belongs to (channel failures carry no guid at all), and
discards a successful response whose guid does not match, continuing to
receive. -/
theorem wait_for_response_routing (g : String) (ct : CancellationToken)
    (delta : Nat) (e : Error) (vr : VerdictResponse) (rest : ChannelTrace)
    (h : delta < ct.duration) :
    wait_for_response g ct ((delta, .error e) :: rest) = .error e
    ∧ (vr.guid = g → wait_for_response g ct ((delta, .ok vr) :: rest) = .ok vr)
    ∧ (vr.guid ≠ g → wait_for_response g ct ((delta, .ok vr) :: rest) =
        wait_for_response g ct rest) := by
  have hnot : ¬ ct.duration ≤ delta := Nat.not_le.mpr h
  refine ⟨by simp [wait_for_response, hnot], fun hg => ?_, fun hg => ?_⟩ <;>
    simp [wait_for_response, hnot, hg]

theorem wait_for_response_routing_witness :
    wait_for_response "g" ⟨10⟩ [(1, .error .ConnectionClosed)] = .error .ConnectionClosed
    ∧ ((⟨"g", "Clean", none, none⟩ : VerdictResponse).guid = "g" →
        wait_for_response "g" ⟨10⟩ [(1, .ok ⟨"g", "Clean", none, none⟩)] =
          .ok ⟨"g", "Clean", none, none⟩)
    ∧ ((⟨"g", "Clean", none, none⟩ : VerdictResponse).guid ≠ "g" →
        wait_for_response "g" ⟨10⟩ [(1, .ok ⟨"g", "Clean", none, none⟩)] =
          wait_for_response "g" ⟨10⟩ []) :=
  wait_for_response_routing "g" ⟨10⟩ 1 .ConnectionClosed
    ⟨"g", "Clean", none, none⟩ [] (by decide)

/-- C3, counterexample: with a bound of 10 and non-matching successful
responses arriving every 6 units, the matching response arrives at time
18, after the bound measured from the start of the call, yet the call
returns it instead of the cancellation failure: the timeout is re-armed
at every receive, so the wait as a whole is not bounded by the token's
duration. -/
theorem wait_not_bounded_overall_cex :
    wait_for_response "g" ⟨10⟩
      [(6, .ok ⟨"a", "Clean", none, none⟩),
       (6, .ok ⟨"b", "Clean", none, none⟩),
       (6, .ok ⟨"g", "Clean", none, none⟩)] = .ok ⟨"g", "Clean", none, none⟩
    ∧ wait_for_response "g" ⟨10⟩
      [(6, .ok ⟨"a", "Clean", none, none⟩),
       (6, .ok ⟨"b", "Clean", none, none⟩),
       (6, .ok ⟨"g", "Clean", none, none⟩)] ≠ .error .Cancelled
    ∧ 10 < 6 + 6 + 6 := by
  refine ⟨rfl, by decide, by decide⟩

/-- C3, amended: each individual receive of the wait loop is bounded by
the token's duration measured from the start of that receive; when no
item at all arrives within the bound (the next item is at least the
duration away, or the channel yields nothing further) the call returns
`Error::Cancelled` rather than hanging.  A non-matching successful
response restarts the bound, so the call as a whole is not bounded. -/
theorem wait_bounded_per_receive (g : String) (ct : CancellationToken)
    (delta : Nat) (item : VResult VerdictResponse) (rest : ChannelTrace)
    (h : ct.duration ≤ delta) :
    wait_for_response g ct ((delta, item) :: rest) = .error .Cancelled
    ∧ wait_for_response g ct [] = .error .Cancelled := by
  exact ⟨by simp [wait_for_response, h], rfl⟩

theorem wait_bounded_per_receive_witness :
    wait_for_response "g" ⟨5⟩ [(5, .ok ⟨"g", "Clean", none, none⟩)] = .error .Cancelled
    ∧ wait_for_response "g" ⟨5⟩ [] = .error .Cancelled :=
  wait_bounded_per_receive "g" ⟨5⟩ 5 (.ok ⟨"g", "Clean", none, none⟩) [] (by decide)

/-- Concrete terminal response used to exercise `for_stream`. -/
def respMalicious : VerdictResponse := ⟨"g1", "Malicious", none, none⟩

/-- Concrete request environment whose first correlated response is the
terminal `respMalicious`. -/
def envStreamTerminal : RequestEnv :=
  ⟨"g1", none, [(1, .ok respMalicious)], .error .NoConnection, []⟩

/-- C1, counterexample: a stream request whose first correlated response
decodes to the terminal verdict Malicious returns `Err(Error::Cancelled)`
(`connection.rs:191`), not the response wrapped as the public verdict
result, which would be `Ok`. -/
theorem for_stream_terminal_cex :
    (for_stream envStreamTerminal ⟨10⟩).1 = .error .Cancelled
    ∧ VaasVerdict.tryFrom respMalicious = .ok ⟨.malicious⟩
    ∧ (for_stream envStreamTerminal ⟨10⟩).1 ≠ VaasVerdict.tryFrom respMalicious := by
  refine ⟨rfl, rfl, by decide⟩

/-- C1, amended: whenever the first correlated response of a stream
request decodes to any verdict other than Unknown, `for_stream` returns
`Err(Error::Cancelled)`; only an Unknown verdict proceeds to the upload
flow. -/
theorem for_stream_terminal_cancelled (env : RequestEnv) (ct : CancellationToken)
    (r : VerdictResponse) (v : Verdict)
    (h1 : for_request env ct = .ok r)
    (h2 : Verdict.tryFrom r = .ok v)
    (h3 : v.isUnknown = false) :
    (for_stream env ct).1 = .error .Cancelled := by
  unfold for_stream
  rw [h1]
  dsimp only
  rw [h2]
  cases v with
  | unknown u => simp [Verdict.isUnknown] at h3
  | malicious => rfl
  | clean => rfl
  | unsupported => rfl

theorem for_stream_terminal_cancelled_witness :
    for_request envStreamTerminal ⟨10⟩ = .ok respMalicious
    ∧ Verdict.tryFrom respMalicious = .ok .malicious
    ∧ Verdict.isUnknown .malicious = false
    ∧ (for_stream envStreamTerminal ⟨10⟩).1 = .error .Cancelled :=
  ⟨rfl, rfl, rfl,
    for_stream_terminal_cancelled envStreamTerminal ⟨10⟩ respMalicious .malicious
      rfl rfl rfl⟩

/-- C2, counterexample: a keep-alive tick whose ping send fails while one
subscriber is receiving publishes the failure and the loop then continues
(it sends a further ping on the next tick and has not exited), instead of
terminating: the `?` after the broadcast `send` only exits the task when
the send itself fails. -/
theorem keep_alive_continues_after_failure_cex :
    keep_alive_loop
      [⟨some (.WebSocket "broken pipe"), none, 1⟩, ⟨none, none, 1⟩] =
      ⟨2, [.WebSocket "broken pipe"], none⟩
    ∧ (keep_alive_loop
        [⟨some (.WebSocket "broken pipe"), none, 1⟩, ⟨none, none, 1⟩]).pings_sent = 2 := by
  refine ⟨rfl, rfl⟩

/-- C2, amended: when the ping send fails or the flush fails (or both),
each failure is published whenever at least one subscriber is receiving,
and the loop then continues with further ticks; the loop terminates only
when the broadcast publish itself fails because no subscriber exists, in
which case the failure is not delivered to anyone and no further pings
are sent. -/
theorem keep_alive_exit_only_on_publish_failure (e f : Error) (fr : Option Error)
    (k : Nat) (rest : List KeepAliveTick) (st : KeepAliveState)
    (hrun : st.exit = none) :
    keep_alive_run (⟨some e, fr, 0⟩ :: rest) st =
      { st with pings_sent := st.pings_sent + 1, exit := some sendFailure }
    ∧ keep_alive_run (⟨none, some f, 0⟩ :: rest) st =
        { st with pings_sent := st.pings_sent + 1, exit := some sendFailure }
    ∧ keep_alive_run (⟨some e, none, k + 1⟩ :: rest) st =
        keep_alive_run rest
          { st with pings_sent := st.pings_sent + 1,
                    published := st.published ++ [e] }
    ∧ keep_alive_run (⟨none, some f, k + 1⟩ :: rest) st =
        keep_alive_run rest
          { st with pings_sent := st.pings_sent + 1,
                    published := st.published ++ [f] }
    ∧ keep_alive_run (⟨some e, some f, k + 1⟩ :: rest) st =
        keep_alive_run rest
          { st with pings_sent := st.pings_sent + 1,
                    published := st.published ++ [e] ++ [f] } := by
  refine ⟨?_, ?_, ?_, ?_, ?_⟩ <;>
    simp [keep_alive_run, keep_alive_tick, hrun]

theorem keep_alive_exit_only_on_publish_failure_witness :
    keep_alive_run [⟨some (.WebSocket "x"), none, 0⟩] ⟨0, [], none⟩ =
      { pings_sent := 1, published := [], exit := some sendFailure }
    ∧ keep_alive_run [⟨none, some (.WebSocket "y"), 0⟩] ⟨0, [], none⟩ =
        { pings_sent := 1, published := [], exit := some sendFailure }
    ∧ keep_alive_run [⟨some (.WebSocket "x"), none, 1⟩] ⟨0, [], none⟩ =
        keep_alive_run []
          { pings_sent := 1, published := [.WebSocket "x"], exit := none }
    ∧ keep_alive_run [⟨none, some (.WebSocket "y"), 1⟩] ⟨0, [], none⟩ =
        keep_alive_run []
          { pings_sent := 1, published := [.WebSocket "y"], exit := none }
    ∧ keep_alive_run [⟨some (.WebSocket "x"), some (.WebSocket "y"), 1⟩] ⟨0, [], none⟩ =
        keep_alive_run []
          { pings_sent := 1,
            published := [.WebSocket "x", .WebSocket "y"], exit := none } := by
  have h := keep_alive_exit_only_on_publish_failure (.WebSocket "x") (.WebSocket "y")
    none 0 [] ⟨0, [], none⟩ rfl
  exact ⟨h.1, h.2.1, h.2.2.1, h.2.2.2.1, h.2.2.2.2⟩

/-- C10: a publish attempted at a moment with no subscriber makes the
broadcast `send` fail, and the `?` operator ends the background task
permanently: a decoded verdict frame arriving before any request is
waiting terminates the reader loop after that single frame with nothing
delivered, and a keep-alive send failure with no waiters terminates the
keep-alive loop after that single ping with nothing delivered. -/
theorem background_publish_no_subscribers_exits
    (decode : String → VResult MessageType) (p : String) (vr : VerdictResponse)
    (rest : List (Except String Frame × Nat)) (e : Error)
    (ticks : List KeepAliveTick)
    (h : decode p = .ok (.verdictResponse vr)) :
    start_reader_loop decode ((.ok (.text p), 0) :: rest) = ⟨1, [], some sendFailure⟩
    ∧ keep_alive_loop (⟨some e, none, 0⟩ :: ticks) = ⟨1, [], some sendFailure⟩ := by
  constructor
  · simp [start_reader_loop, reader_run, reader_step, parse_frame, h, publish]
  · simp [keep_alive_loop, keep_alive_run, keep_alive_tick]

theorem background_publish_no_subscribers_exits_witness :
    start_reader_loop
      (fun s => if s = "vr" then .ok (.verdictResponse ⟨"g", "Clean", none, none⟩)
        else .error (.InvalidMessage s))
      [(.ok (.text "vr"), 0)] = ⟨1, [], some sendFailure⟩
    ∧ keep_alive_loop [⟨some .ConnectionClosed, none, 0⟩] =
        ⟨1, [], some sendFailure⟩ :=
  background_publish_no_subscribers_exits
    (fun s => if s = "vr" then .ok (.verdictResponse ⟨"g", "Clean", none, none⟩)
      else .error (.InvalidMessage s))
    "vr" ⟨"g", "Clean", none, none⟩ [] .ConnectionClosed [] (by decide)

/-- Concrete first response reporting Unknown, with upload location and
authorization token present. -/
def respUnknownFirst : VerdictResponse :=
  ⟨"g1", "Unknown", some "https://upload.example", some "tok"⟩

/-- C5: when the upload PUT completes with a non-success status, the
operation fails with `FailedUploadFile` carrying both the status code and
the response body text, exactly as `connection.rs:271` constructs it.
Note `error.rs:55` declares this variant with the status code only, so
the given sources contradict each other; the embedding follows the
construction site. -/
theorem upload_failure_carries_status_and_body :
    (for_generic (.ok ⟨"aa"⟩)
        ⟨"g1", none, [(1, .ok respUnknownFirst)], .ok ⟨404, "not found"⟩, []⟩
        ⟨10⟩).1
      = .error (.FailedUploadFile 404 "not found") := by rfl

/-- C8, counterexample: requesting the content identifier of a pure
stream upload source panics with "Stream cannot compute SHA256"
(`connection.rs:434`); the failure is a panic, not a typed error result
returned to the caller. -/
theorem stream_get_sha256_panics_cex :
    StreamUploadable.get_sha256 (⟨(), 3⟩ : StreamUploadable Unit) =
      .panics "Stream cannot compute SHA256"
    ∧ (StreamUploadable.get_sha256 (⟨(), 3⟩ : StreamUploadable Unit)).isPanics = true :=
  ⟨rfl, rfl⟩

/-- C8, amended: `get_sha256` on a pure stream source fails fast for
every stream — it never computes or returns a hash value — but it does so
by panicking with "Stream cannot compute SHA256", not by yielding a typed
error result. -/
theorem stream_get_sha256_always_panics {S : Type} (s : StreamUploadable S) :
    StreamUploadable.get_sha256 s = .panics "Stream cannot compute SHA256"
    ∧ (StreamUploadable.get_sha256 s).isPanics = true :=
  ⟨rfl, rfl⟩

theorem stream_get_sha256_always_panics_witness :
    StreamUploadable.get_sha256 (⟨0, 7⟩ : StreamUploadable Nat) =
      .panics "Stream cannot compute SHA256"
    ∧ (StreamUploadable.get_sha256 (⟨0, 7⟩ : StreamUploadable Nat)).isPanics = true :=
  stream_get_sha256_always_panics ⟨0, 7⟩

/-- `handle_unknown` performs at most one upload PUT on every path. -/
theorem handle_unknown_snd_le_one (u : String) (r : VerdictResponse)
    (env : RequestEnv) (ct : CancellationToken) :
    (handle_unknown u r env ct).2 ≤ 1 := by
  unfold handle_unknown
  cases htok : r.upload_token with
  | none => simp
  | some t =>
    cases hup : env.upload_result with
    | error e => simp
    | ok http =>
      by_cases hs : http.status = 200
      · simp only [hs]
        cases hw : wait_for_response env.guid ct env.second_channel <;> simp
      · simp [hs]

/-- A response whose verdict discriminator is "Unknown" cannot be
wrapped as the public verdict result. -/
theorem tryFrom_unknown_verdict_fails (r : VerdictResponse)
    (h : r.verdict = "Unknown") :
    ∃ e, VaasVerdict.tryFrom r = .error e := by
  cases hu : r.upload_url with
  | none =>
    exact ⟨.NoUploadUrl, by simp [VaasVerdict.tryFrom, Verdict.tryFrom, h, hu]⟩
  | some u =>
    exact ⟨.InvalidVerdict "Unknown",
      by simp [VaasVerdict.tryFrom, Verdict.tryFrom, h, hu, Verdict.isUnknown]⟩

/-- If the post-upload wait yields a response that is again Unknown,
`handle_unknown` fails on every path. -/
theorem handle_unknown_second_unknown_fails (u : String) (r : VerdictResponse)
    (env : RequestEnv) (ct : CancellationToken) (r2 : VerdictResponse)
    (h3 : wait_for_response env.guid ct env.second_channel = .ok r2)
    (h4 : r2.verdict = "Unknown") :
    ∃ e, (handle_unknown u r env ct).1 = .error e := by
  unfold handle_unknown
  cases htok : r.upload_token with
  | none => exact ⟨.MissingAuthToken, by simp⟩
  | some t =>
    cases hup : env.upload_result with
    | error e => exact ⟨e, by simp⟩
    | ok http =>
      by_cases hs : http.status = 200
      · obtain ⟨e, he⟩ := tryFrom_unknown_verdict_fails r2 h4
        exact ⟨e, by simp [hs, h3, he]⟩
      · exact ⟨.FailedUploadFile http.status http.body, by simp [hs]⟩

/-- C6: for a request (stream or generic) whose first correlated response
is Unknown, at most one upload PUT is performed, and when the post-upload
response carrying the same correlation id is again Unknown the operation
fails instead of uploading again or looping. -/
theorem unknown_uploads_once_and_second_unknown_fails
    (s : Sha256) (env : RequestEnv) (ct : CancellationToken)
    (r r2 : VerdictResponse) (u : String)
    (h1 : for_request env ct = .ok r)
    (h2 : Verdict.tryFrom r = .ok (.unknown u))
    (h3 : wait_for_response env.guid ct env.second_channel = .ok r2)
    (h4 : r2.verdict = "Unknown") :
    (for_stream env ct).2 ≤ 1
    ∧ (for_generic (.ok s) env ct).2 ≤ 1
    ∧ (∃ e, (for_stream env ct).1 = .error e)
    ∧ (∃ e, (for_generic (.ok s) env ct).1 = .error e) := by
  have hstream : for_stream env ct = handle_unknown u r env ct := by
    unfold for_stream
    rw [h1]
    dsimp only
    rw [h2]
  have hgen : for_generic (.ok s) env ct = handle_unknown u r env ct := by
    unfold for_generic
    dsimp only
    rw [h1]
    dsimp only
    rw [h2]
  refine ⟨?_, ?_, ?_, ?_⟩
  · rw [hstream]; exact handle_unknown_snd_le_one u r env ct
  · rw [hgen]; exact handle_unknown_snd_le_one u r env ct
  · rw [hstream]; exact handle_unknown_second_unknown_fails u r env ct r2 h3 h4
  · rw [hgen]; exact handle_unknown_second_unknown_fails u r env ct r2 h3 h4

/-- Concrete post-upload response reporting Unknown a second time. -/
def respUnknownSecond : VerdictResponse :=
  ⟨"g1", "Unknown", some "https://upload.example/2", some "tok2"⟩

/-- Concrete environment in which the first and the post-upload response
both report Unknown and the upload PUT succeeds with status 200. -/
def envUnknownTwice : RequestEnv :=
  ⟨"g1", none, [(1, .ok respUnknownFirst)], .ok ⟨200, ""⟩,
    [(1, .ok respUnknownSecond)]⟩

theorem unknown_uploads_once_and_second_unknown_fails_witness :
    (for_stream envUnknownTwice ⟨10⟩).2 ≤ 1
    ∧ (for_generic (.ok ⟨"aa"⟩) envUnknownTwice ⟨10⟩).2 ≤ 1
    ∧ (∃ e, (for_stream envUnknownTwice ⟨10⟩).1 = .error e)
    ∧ (∃ e, (for_generic (.ok ⟨"aa"⟩) envUnknownTwice ⟨10⟩).1 = .error e) :=
  unknown_uploads_once_and_second_unknown_fails ⟨"aa"⟩ envUnknownTwice ⟨10⟩
    respUnknownFirst respUnknownSecond "https://upload.example"
    (by decide) (by decide) (by decide) (by decide)

/-- Writing completed results into their slots never changes the number
of slots. -/
theorem foldl_set_length {α : Type} (events : List (Nat × α))
    (init : List (Option α)) :
    (events.foldl (fun acc p => acc.set p.1 (some p.2)) init).length = init.length := by
  induction events generalizing init with
  | nil => rfl
  | cons p rest ih => simp [List.foldl_cons, ih, List.length_set]

/-- A slot no completion event writes to keeps its initial content. -/
theorem foldl_set_not_mem {α : Type} (events : List (Nat × α))
    (init : List (Option α)) (i : Nat) (h : i ∉ events.map Prod.fst) :
    (events.foldl (fun acc p => acc.set p.1 (some p.2)) init)[i]? = init[i]? := by
  induction events generalizing init with
  | nil => rfl
  | cons p rest ih =>
    simp only [List.map_cons, List.mem_cons] at h
    push_neg at h
    obtain ⟨h1, h2⟩ := h
    rw [List.foldl_cons, ih _ h2, List.getElem?_set_ne h1.symm]

/-- When each slot is written at most once, a slot written with a value
ends up holding that value. -/
theorem foldl_set_mem {α : Type} (events : List (Nat × α))
    (init : List (Option α)) (i : Nat) (v : α) (hmem : (i, v) ∈ events)
    (hnodup : (events.map Prod.fst).Nodup) (hlen : i < init.length) :
    (events.foldl (fun acc p => acc.set p.1 (some p.2)) init)[i]? = some (some v) := by
  induction events generalizing init with
  | nil => cases hmem
  | cons p rest ih =>
    obtain ⟨j, w⟩ := p
    rw [List.foldl_cons]
    simp only [List.map_cons, List.nodup_cons] at hnodup
    obtain ⟨hp, hrest⟩ := hnodup
    rcases List.mem_cons.mp hmem with heq | hmem2
    · obtain ⟨hij, hvw⟩ := Prod.mk.injEq .. ▸ heq
      subst hij
      subst hvw
      rw [foldl_set_not_mem rest _ i hp, List.getElem?_set_self hlen]
    · exact ih (init.set j (some w)) hmem2 hrest
        (by simpa [List.length_set] using hlen)

/-- `join_all` over a completion list that is a permutation of the
positions returns exactly the positional results, whatever the
completion order. -/
theorem join_all_spec {α : Type} (dflt : α) (completion : List Nat)
    (xs : List α) (hperm : completion.Perm (List.range xs.length)) :
    (join_all dflt completion xs).length = xs.length
    ∧ ∀ i, i < xs.length → (join_all dflt completion xs)[i]? = xs[i]? := by
  constructor
  · simp [join_all, foldl_set_length]
  · intro i hi
    unfold join_all
    have hmem : (i, xs.getD i dflt) ∈
        completion.map (fun j => (j, xs.getD j dflt)) :=
      List.mem_map_of_mem _ (hperm.mem_iff.mpr (List.mem_range.mpr hi))
    have hfst : (completion.map (fun j => (j, xs.getD j dflt))).map Prod.fst =
        completion := by
      rw [List.map_map]
      exact List.map_id'' (fun x => rfl) completion
    have hnodup :
        ((completion.map (fun j => (j, xs.getD j dflt))).map Prod.fst).Nodup := by
      rw [hfst]
      exact hperm.nodup_iff.mpr (List.nodup_range _)
    have hlen : i < (List.replicate xs.length (none : Option α)).length := by
      simpa using hi
    have hslot := foldl_set_mem _ _ i (xs.getD i dflt) hmem hnodup hlen
    rw [List.getElem?_map, hslot]
    simp [List.getD_eq_getElem?_getD, List.getElem?_eq_getElem hi]

/-- C7: each batch operation applied to an input list of length n yields
an output list of length n whose i-th element is the single-item flow
applied to the i-th input, for every completion order of the underlying
responses (any permutation of the positions). -/
theorem batch_preserves_input_order
    (hs : List (Sha256 × RequestEnv)) (us : List (String × RequestEnv))
    (fs : List (VResult Sha256 × RequestEnv)) (ct : CancellationToken)
    (c1 c2 c3 : List Nat)
    (hp1 : c1.Perm (List.range hs.length))
    (hp2 : c2.Perm (List.range us.length))
    (hp3 : c3.Perm (List.range fs.length)) :
    ((for_sha256_list hs ct c1).length = hs.length
      ∧ ∀ i, i < hs.length → (for_sha256_list hs ct c1)[i]? =
          (hs[i]?).map (fun p => for_sha256 p.1 p.2 ct))
    ∧ ((for_url_list us ct c2).length = us.length
      ∧ ∀ i, i < us.length → (for_url_list us ct c2)[i]? =
          (us[i]?).map (fun p => for_url p.1 p.2 ct))
    ∧ ((for_file_list fs ct c3).length = fs.length
      ∧ ∀ i, i < fs.length → (for_file_list fs ct c3)[i]? =
          (fs[i]?).map (fun p => for_file p.1 p.2 ct)) := by
  refine ⟨?_, ?_, ?_⟩
  · obtain ⟨hl, he⟩ := join_all_spec dfltVerdict c1
      (hs.map (fun p => for_sha256 p.1 p.2 ct)) (by simpa using hp1)
    refine ⟨by simpa using hl, fun i hi => ?_⟩
    rw [for_sha256_list, he i (by simpa using hi), List.getElem?_map]
  · obtain ⟨hl, he⟩ := join_all_spec dfltVerdict c2
      (us.map (fun p => for_url p.1 p.2 ct)) (by simpa using hp2)
    refine ⟨by simpa using hl, fun i hi => ?_⟩
    rw [for_url_list, he i (by simpa using hi), List.getElem?_map]
  · obtain ⟨hl, he⟩ := join_all_spec dfltVerdict c3
      (fs.map (fun p => for_file p.1 p.2 ct)) (by simpa using hp3)
    refine ⟨by simpa using hl, fun i hi => ?_⟩
    rw [for_file_list, he i (by simpa using hi), List.getElem?_map]

/-- Concrete environment that resolves to a Clean verdict for guid
"ga". -/
def envCleanA : RequestEnv :=
  ⟨"ga", none, [(1, .ok ⟨"ga", "Clean", none, none⟩)], .error .NoConnection, []⟩

/-- Concrete environment that resolves to a Malicious verdict for guid
"gb". -/
def envMaliciousB : RequestEnv :=
  ⟨"gb", none, [(1, .ok ⟨"gb", "Malicious", none, none⟩)], .error .NoConnection, []⟩

theorem batch_preserves_input_order_witness :
    ((for_sha256_list [(⟨"a"⟩, envCleanA), (⟨"b"⟩, envMaliciousB)] ⟨10⟩ [1, 0]).length = 2
      ∧ ∀ i, i < 2 →
          (for_sha256_list [(⟨"a"⟩, envCleanA), (⟨"b"⟩, envMaliciousB)] ⟨10⟩ [1, 0])[i]? =
          (([(⟨"a"⟩, envCleanA), (⟨"b"⟩, envMaliciousB)] :
              List (Sha256 × RequestEnv))[i]?).map (fun p => for_sha256 p.1 p.2 ⟨10⟩))
    ∧ ((for_url_list [("https://u", envCleanA)] ⟨10⟩ [0]).length = 1
      ∧ ∀ i, i < 1 →
          (for_url_list [("https://u", envCleanA)] ⟨10⟩ [0])[i]? =
          (([("https://u", envCleanA)] :
              List (String × RequestEnv))[i]?).map (fun p => for_url p.1 p.2 ⟨10⟩))
    ∧ ((for_file_list [(.ok ⟨"a"⟩, envCleanA)] ⟨10⟩ [0]).length = 1
      ∧ ∀ i, i < 1 →
          (for_file_list [(.ok ⟨"a"⟩, envCleanA)] ⟨10⟩ [0])[i]? =
          (([(.ok ⟨"a"⟩, envCleanA)] :
              List (VResult Sha256 × RequestEnv))[i]?).map (fun p => for_file p.1 p.2 ⟨10⟩)) :=
  batch_preserves_input_order
    [(⟨"a"⟩, envCleanA), (⟨"b"⟩, envMaliciousB)] [("https://u", envCleanA)]
    [(.ok ⟨"a"⟩, envCleanA)] ⟨10⟩ [1, 0] [0] [0]
    (by decide) (by decide) (by decide)

end Vaas
